import Mathlib

set_option maxHeartbeats 1600000

/-!
Verification of the plugin-fair repository core: chain registry and wallet
provider (src/providers/wallet.ts, src/config/pluginConfig.ts), token
resolution, quote calculation and swap execution (src/actions/swap.ts),
transfers (src/actions/transfer.ts) and balance reading
(src/actions/getBalance.ts).

The embedding is a shallow one: TypeScript classes become structures,
methods become functions, thrown errors become `Except String` with the
source's message strings, and every external collaborator (the EVM RPC
client, the router contract, the BITE encryption middleware) is an
explicit oracle environment `Env`.  `async` methods are embedded as plain
functions (each awaited call is ordinary application; the operations are
fully sequential, per the repository's single-flow design) — with one
deliberate exception: the source's single un-awaited async call,
`params.toAddress = this.walletProvider.formatAddress(...)` at
transfer.ts:211, leaves a pending Promise object in the recipient field,
and the embedding models that runtime value explicitly as
`JsStringValue.promise` so the downstream consequences (the external
client rejecting the promise-valued recipient before any broadcast) are
traced rather than repaired.  Network
interactions (contract reads, transaction broadcasts, receipt waits) are
recorded in an explicit `Effect` list so that "no network call happens
before X" is a provable statement.  JavaScript numbers that carry slippage
percentages are modelled as rationals; on-chain amounts (TS `bigint`) as
naturals, which agrees with bigint arithmetic on the nonnegative ranges
the code validates.
-/

namespace PluginFair

/-- JavaScript `String.prototype.toLowerCase` restricted to ASCII, which is
the alphabet of every token symbol and chain name in the repository. -/
def jsLower (s : String) : String := String.mk (s.data.map Char.toLower)

/-- JavaScript `String.prototype.toUpperCase` restricted to ASCII. -/
def jsUpper (s : String) : String := String.mk (s.data.map Char.toUpper)

/-- Whitespace test used by `jsTrim` (space, tab, newline, carriage return). -/
def isJsWhitespace (c : Char) : Bool := c = ' ' || c = '\t' || c = '\n' || c = '\r'

/-- JavaScript `String.prototype.trim`: drop whitespace from both ends. -/
def jsTrim (s : String) : String :=
  String.mk (((s.data.dropWhile isJsWhitespace).reverse.dropWhile isJsWhitespace).reverse)

/-- JavaScript `String.prototype.startsWith` for a literal pattern. -/
def strStartsWith (s pat : String) : Bool := pat.data.isPrefixOf s.data

/-- JavaScript `String.prototype.includes` for a single character
(used for the `params.amount.includes('.')` checks). -/
def strContainsChar (s : String) (c : Char) : Bool := s.data.contains c

/-- Value of a list of decimal digit characters, most significant first. -/
def digitsToNat (l : List Char) : ℕ :=
  l.foldl (fun a c => a * 10 + (c.toNat - '0'.toNat)) 0

/-- JavaScript `parseFloat`, restricted to the plain decimal grammar the
repository feeds it (optional sign, digits, optional fraction; longest
valid prefix; `none` plays the role of `NaN`).  Exponent notation is not
modelled — the spec explicitly requires no scientific-notation support. -/
def jsParseFloat (s : String) : Option ℚ :=
  let l := s.data.dropWhile isJsWhitespace
  let sign : ℚ × List Char :=
    match l with
    | '-' :: r => (-1, r)
    | '+' :: r => (1, r)
    | _ => (1, l)
  let intDigits := sign.2.takeWhile Char.isDigit
  let rest := sign.2.dropWhile Char.isDigit
  let fracDigits :=
    match rest with
    | '.' :: r => r.takeWhile Char.isDigit
    | _ => []
  if intDigits.isEmpty && fracDigits.isEmpty then none
  else
    some (sign.1 * ((digitsToNat intDigits : ℚ)
      + (digitsToNat fracDigits : ℚ) / (10 ^ fracDigits.length)))

/-- viem `parseUnits` on nonnegative decimal strings: scale a decimal
string to an integer with `decimals` fractional digits; a fraction longer
than `decimals` is rounded (round half up on the first dropped digit, as
viem does); `none` models viem's thrown invalid-decimal error. -/
def parseUnits (value : String) (decimals : ℕ) : Option ℕ :=
  let l := value.data
  let intDigits := l.takeWhile Char.isDigit
  let rest := l.dropWhile Char.isDigit
  match rest with
  | [] =>
    if intDigits.isEmpty then none
    else some (digitsToNat intDigits * 10 ^ decimals)
  | '.' :: fr =>
    if fr.all Char.isDigit && !(intDigits.isEmpty && fr.isEmpty) then
      let kept := fr.take decimals
      let roundUp : ℕ :=
        match fr.drop decimals with
        | [] => 0
        | c :: _ => if 5 ≤ c.toNat - '0'.toNat then 1 else 0
      some (digitsToNat intDigits * 10 ^ decimals
        + digitsToNat kept * 10 ^ (decimals - kept.length) + roundUp)
    else none
  | _ => none

/-- viem `parseEther` = `parseUnits` with 18 decimals. -/
def parseEther (value : String) : Option ℕ := parseUnits value 18

/-- viem `formatUnits` on a nonnegative raw amount: insert a decimal point
`decimals` digits from the right, trimming trailing fractional zeros. -/
def formatUnits (value : ℕ) (decimals : ℕ) : String :=
  let display := (toString value).data
  let padded := List.replicate (decimals - display.length) '0' ++ display
  let intPart := padded.take (padded.length - decimals)
  let fracPart := ((padded.drop (padded.length - decimals)).reverse.dropWhile
    (fun c => c = '0')).reverse
  String.mk ((if intPart.isEmpty then ['0'] else intPart)
    ++ (if fracPart.isEmpty then [] else '.' :: fracPart))

/-- Hexadecimal digit test, used by the viem `isAddress` shape check. -/
def isHexDigit (c : Char) : Bool :=
  c.isDigit || ('a' ≤ c && c ≤ 'f') || ('A' ≤ c && c ≤ 'F')

/-- viem `isAddress` reduced to its shape check: `0x` followed by exactly
40 hex digits.  EIP-55 checksum validation of mixed-case addresses is not
modelled; every address literal in the repository's configuration passes
both the real check and this one. -/
def isAddress (s : String) : Bool :=
  strStartsWith s "0x" && s.length = 42 && (s.data.drop 2).all isHexDigit

/-! ## Data model (src/types/index.ts) -/

/-- BiteConfig: the process-wide encryption mode (`'manual' | 'automatic'`). -/
inductive BiteConfig where
  | manual
  | automatic
deriving Repr, DecidableEq

/-- ChainConfig from src/types/index.ts; the token table is an association
list from token symbol to address, insertion-ordered like the TS record. -/
structure ChainConfig where
  chainId : String
  nativeToken : String
  rpc : String
  explorerUrl : String
  tokens : List (String × String)
  uniswapV2Router : String
deriving Repr, DecidableEq

/-- DEFAULT_CHAIN_CONFIG from src/types/index.ts. -/
def DEFAULT_CHAIN_CONFIG : ChainConfig :=
  { chainId := "1328435889"
    nativeToken := "FAIR"
    rpc := "https://testnet-v1.skalenodes.com/v1/idealistic-dual-miram"
    explorerUrl := "https://idealistic-dual-miram.explorer.testnet-v1.skalenodes.com/"
    tokens :=
      [ ("USDC", "0x389E0Ec8a0226E96528761b5954830727d892117")
      , ("SKL", "0x2770Fc13a45be852Db0bB90A85D463C03CCa4fA6")
      , ("USDT", "0x1D13d5697490C94f5Aa6f38bEEB4D6Ef4535a40c")
      , ("WFAIR", "0x4706C664ab84B7d6b9a7911cFB47b1f81335b208") ]
    uniswapV2Router := "0x05BD86b5e9A6a8E838ef50cAEB96a502271349D0" }

/-- WalletProvider state (src/providers/wallet.ts): the signing account's
address, the process-wide encryption mode, and the merged chain registry
held by the PluginConfigManager. -/
structure WalletProvider where
  address : String
  biteConfig : BiteConfig
  chains : List (String × ChainConfig)
deriving Repr, DecidableEq

/-- Symbolic transaction payload: the result of `encodeFunctionData` for
the ABI calls the repository encodes, kept symbolic rather than as bytes. -/
inductive TxData where
  | empty
  | raw (hex : String)
  | approve (spender : String) (amount : ℕ)
  | transferErc20 (recipient : String) (amount : ℕ)
  | swapExactETHForTokens (amountOutMin : ℕ) (path : List String) (dest : String) (deadline : ℕ)
  | swapExactTokensForETH (amountIn amountOutMin : ℕ) (path : List String) (dest : String)
      (deadline : ℕ)
  | swapExactTokensForTokens (amountIn amountOutMin : ℕ) (path : List String) (dest : String)
      (deadline : ℕ)
deriving Repr, DecidableEq

/-- EVMTransaction from src/types/index.ts (the source's `to` field is
`toAddr` here because `to` is a Lean keyword). -/
structure EVMTransaction where
  toAddr : String
  data : TxData
  value : ℕ
  gas : ℕ
  gasPrice : ℕ
  chainId : String
deriving Repr, DecidableEq

/-- One observable interaction with the chain: a contract read, a
transaction broadcast (with the flag saying whether the BITE middleware
encrypted it first), or a receipt wait.  Request validation must produce
none of these. -/
inductive Effect where
  | readDecimals (chainName tokenAddress : String)
  | readAllowance (chainName tokenAddress owner spender : String)
  | readAmountsOut (chainName router : String) (amountIn : ℕ) (path : List String)
  | readNativeBalance (chainName account : String)
  | readErc20Balance (chainName tokenAddress account : String)
  | sendTx (chainName : String) (tx : EVMTransaction) (encrypted : Bool)
  | waitReceipt (chainName hash : String)
deriving Repr, DecidableEq

/-- Oracle for every external collaborator: ERC-20 `decimals()` and
`allowance()` reads, the router's `getAmountsOut` quote (`none` models the
call failing, e.g. no liquidity), the hash each broadcast returns, and
native / ERC-20 balance reads. -/
structure Env where
  decimalsOf : String → ℕ
  allowanceOf : String → ℕ
  getAmountsOut : Option ℕ
  sendResult : String
  nativeBalanceOf : String → ℕ
  erc20BalanceOf : String → String → ℕ

/-! ## PluginConfigManager (src/config/pluginConfig.ts) -/

/-- PluginConfigManager.getChainConfig: throws when the chain is absent. -/
def getChainConfig (wp : WalletProvider) (chainName : String) : Except String ChainConfig :=
  match wp.chains.lookup chainName with
  | none => .error "Chain with that name not registered"
  | some c => .ok c

/-- PluginConfigManager.getTokenAddress: an absent token throws; an absent
chain hits a JS TypeError reading `tokens` of `undefined`. -/
def getTokenAddress (wp : WalletProvider) (chainName tokenName : String) :
    Except String String :=
  match wp.chains.lookup chainName with
  | none => .error "Cannot read properties of undefined"
  | some c =>
    match c.tokens.lookup tokenName with
    | none => .error "Token used not registered on the chain config"
    | some a => .ok a

/-- PluginConfigManager.getUniswapAddress: requires the chain registered
and its router field to pass viem's `isAddress`. -/
def getUniswapAddress (wp : WalletProvider) (chainName : String) : Except String String :=
  match wp.chains.lookup chainName with
  | none => .error "Chain with that name not registered"
  | some c =>
    if isAddress c.uniswapV2Router then .ok c.uniswapV2Router
    else .error "Chain doesn't have uniswapV2Router contract on the config"

/-! ## WalletProvider methods (src/providers/wallet.ts) -/

/-- WalletProvider.isChainSupported: empty names report false; other
unregistered names propagate getChainConfig's throw (the code calls
getChainConfig, which throws, before its own falsiness check). -/
def isChainSupported (wp : WalletProvider) (chainName : String) : Except String Bool :=
  if chainName = "" then .ok false
  else
    match wp.chains.lookup chainName with
    | none => .error "Chain with that name not registered"
    | some _ => .ok true

/-- WalletProvider.getChainToken = configManager.getTokenAddress. -/
def getChainToken (wp : WalletProvider) (chainName tokenName : String) :
    Except String String :=
  getTokenAddress wp chainName tokenName

/-- WalletProvider.getChainNativetToken (source spelling) =
configManager.getChainNativeToken. -/
def getChainNativetToken (wp : WalletProvider) (chainName : String) : Except String String :=
  (getChainConfig wp chainName).map ChainConfig.nativeToken

/-- The token symbols wallet.ts's formatAddress refuses to treat as
addresses (its hard-coded `commonTokens` list). -/
def commonTokens : List String := ["FAIR", "USDT", "USDC", "SKL", "WFAIR"]

/-- WalletProvider.formatAddress: null/undefined or blank input falls back
to the wallet's own address; a 42-character 0x string is used as-is; a
known token symbol falls back to the wallet's address; any other
0x-prefixed string is used as-is; everything else falls back to the
wallet's address. -/
def formatAddress (wp : WalletProvider) (address : Option String) : String :=
  match address with
  | none => wp.address
  | some a =>
    if (jsTrim a).length = 0 then wp.address
    else
      let addressStr := jsTrim a
      if strStartsWith addressStr "0x" && addressStr.length = 42 then addressStr
      else if commonTokens.contains (jsUpper addressStr) then wp.address
      else if strStartsWith addressStr "0x" then addressStr
      else wp.address

/-- WalletProvider.sendTransaction's encryption decision: encrypt when the
process-wide mode is automatic or the per-request flag is set
(`if (this.biteConfig === 'automatic' || isBite) tx_ = await this.encryptTx(...)`). -/
def sendTransactionEncrypts (wp : WalletProvider) (isBite : Bool) : Bool :=
  wp.biteConfig = BiteConfig.automatic || isBite

/-- WalletProvider.sendTransaction: broadcasts the transaction (encrypted
first by the BITE middleware when the decision above says so — the
encrypted bytes themselves are external, so the effect records the
pre-encryption transaction plus the encryption flag) and returns the hash
the client reports. -/
def sendTransaction (wp : WalletProvider) (env : Env) (chainName : String)
    (tx : EVMTransaction) (isBite : Bool) : String × Effect :=
  (env.sendResult, Effect.sendTx chainName tx (sendTransactionEncrypts wp isBite))

/-- WalletProvider.getBalance: reads the native balance of the provider's
own account address (the method takes no address argument) and formats it
with 18 decimals. -/
def walletGetBalance (wp : WalletProvider) (env : Env) (chainName : String) :
    String × Effect :=
  (formatUnits (env.nativeBalanceOf wp.address) 18,
    Effect.readNativeBalance chainName wp.address)

/-! ## SwapAction (src/actions/swap.ts) -/

/-- SwapParams from src/types/index.ts; `isBite` is optional in the source
and always supplied by the handler, so it is a plain Bool here
(`undefined` behaves as `false` in every use). -/
structure SwapParams where
  chainName : String
  inputToken : String
  outputToken : String
  amount : String
  slippage : Option ℚ
  isBite : Bool
deriving Repr, DecidableEq

/-- SwapResponse from src/types/index.ts. -/
structure SwapResponse where
  chainName : String
  txHash : String
  inputToken : String
  outputToken : String
  amountIn : String
  amountOut : String
  isBite : Bool
deriving Repr, DecidableEq

/-- Result of SwapAction.resolveTokenAddress. -/
structure ResolvedToken where
  address : String
  isNative : Bool
deriving Repr, DecidableEq

/-- SwapAction.DEFAULT_SLIPPAGE = 0.5 (percent). -/
def DEFAULT_SLIPPAGE : ℚ := 1 / 2

/-- SwapAction.SWAP_GAS. -/
def SWAP_GAS : ℕ := 1000000

/-- SwapAction.DEFAULT_GAS_PRICE (shared by TransferAction). -/
def DEFAULT_GAS_PRICE : ℕ := 1000000

/-- SwapAction.resolveTokenAddress: a 0x-prefixed reference is returned
as-is (no length check); a case-insensitive match of the chain's native
symbol resolves to the wrapped-native registry entry under
`"W" + nativeToken` with `isNative := true`; anything else is looked up in
the chain's token table. -/
def resolveTokenAddress (wp : WalletProvider) (token chainName : String) :
    Except String ResolvedToken :=
  if strStartsWith token "0x" then .ok { address := token, isNative := false }
  else
    match getChainConfig wp chainName with
    | .error e => .error e
    | .ok cfg =>
      let nativeToken := cfg.nativeToken
      if jsLower token = jsLower nativeToken then
        match getChainToken wp chainName ("W" ++ nativeToken) with
        | .error e => .error e
        | .ok nativeAddress => .ok { address := nativeAddress, isNative := true }
      else
        match getChainToken wp chainName token with
        | .error e => .error e
        | .ok tokenAddress => .ok { address := tokenAddress, isNative := false }

/-- SwapAction.calculateAmountOut: read the router quote for the two-hop
path, then `amountOutMin = amountOut * BigInt(Math.floor((100 - slippage) * 100)) / 10000n`.
The slippage is a rational (JS number) and the basis-point multiplier its
exact floor; on the validated range 0 ≤ slippage ≤ 50 the multiplier is
nonnegative, so the ℕ arithmetic here coincides with the bigint
arithmetic.  A failing quote call is wrapped in the domain-level message. -/
def calculateAmountOut (wp : WalletProvider) (env : Env) (amountIn : ℕ)
    (inputTokenAddress outputTokenAddress : String) (slippage : ℚ) (chainName : String) :
    Except String (ℕ × ℕ) × List Effect :=
  match getUniswapAddress wp chainName with
  | .error e => (.error e, [])
  | .ok routerAddress =>
    let quoteEffect := Effect.readAmountsOut chainName routerAddress amountIn
      [inputTokenAddress, outputTokenAddress]
    match env.getAmountsOut with
    | none =>
      (.error "Unable to calculate swap amounts. Please check if liquidity exists for this pair.",
        [quoteEffect])
    | some amountOut =>
      let slippageMultiplier := (⌊(100 - slippage) * 100⌋).toNat
      let amountOutMin := amountOut * slippageMultiplier / 10000
      (.ok (amountOut, amountOutMin), [quoteEffect])

/-- SwapAction.validateAndNormalizeParams: both tokens present, not equal
case-insensitively, amount present and `parseFloat(amount) <= 0` false
(NaN compares false, so an unparseable amount passes), and slippage, when
given, within [0, 50]. -/
def validateAndNormalizeParams (params : SwapParams) : Except String Unit :=
  if params.inputToken = "" || params.outputToken = "" then
    .error "Both inputToken and outputToken are required"
  else if jsLower params.inputToken = jsLower params.outputToken then
    .error "Cannot swap the same token"
  else if params.amount = "" then
    .error "Amount is required"
  else if (match jsParseFloat params.amount with
           | some q => decide (q ≤ 0)
           | none => false) then
    .error "Amount must be greater than 0"
  else
    match params.slippage with
    | some s =>
      if s < 0 || 50 < s then .error "Slippage must be between 0 and 50 percent"
      else .ok ()
    | none => .ok ()

/-- The slippage the swap flow hands to calculateAmountOut
(`const slippage = params.slippage || this.DEFAULT_SLIPPAGE` at
src/actions/swap.ts:114): JavaScript `||` treats the number 0 as falsy,
so a given slippage of 0 is replaced by the 0.5 default. -/
def swapEffectiveSlippage (params : SwapParams) : ℚ :=
  match params.slippage with
  | none => DEFAULT_SLIPPAGE
  | some s => if s = 0 then DEFAULT_SLIPPAGE else s

/-- Count of approval transactions submitted in an effect trace. -/
def countApprovals (effects : List Effect) : ℕ :=
  effects.countP fun e =>
    match e with
    | Effect.sendTx _ tx _ =>
      match tx.data with
      | TxData.approve _ _ => true
      | _ => false
    | _ => false

/-- SwapAction.approveToken: read the router's current allowance over the
owner's tokens (the read value is the `allowance` argument here); when it
is below `amount`, encode and broadcast `approve(spender, amount)` and
wait for its receipt, otherwise do nothing.  The returned ℕ is the
on-chain allowance afterwards: standard ERC-20 `approve` semantics set it
to `amount`, and the receipt wait ensures the write has landed. -/
def approveToken (wp : WalletProvider) (env : Env) (tokenAddress spender : String)
    (amount allowance : ℕ) (chainName : String) (isBite : Bool) :
    Except String ℕ × List Effect :=
  let readEffect := Effect.readAllowance chainName tokenAddress wp.address spender
  if allowance < amount then
    match getChainConfig wp chainName with
    | .error e => (.error e, [readEffect])
    | .ok cfg =>
      let txContent : EVMTransaction :=
        { toAddr := tokenAddress
          data := TxData.approve spender amount
          value := 0
          gas := SWAP_GAS
          gasPrice := DEFAULT_GAS_PRICE
          chainId := cfg.chainId }
      let sent := sendTransaction wp env chainName txContent isBite
      (.ok amount, [readEffect, sent.2, Effect.waitReceipt chainName sent.1])
  else
    (.ok allowance, [readEffect])

/-- SwapAction.swapETHForTokens: native input path — router call
`swapExactETHForTokens` carrying `amountIn` as the transaction value and
no approval step. -/
def swapETHForTokens (wp : WalletProvider) (env : Env) (amountIn amountOutMin : ℕ)
    (inputTokenAddress outputTokenAddress dest : String) (deadline : ℕ)
    (chainName : String) (isBite : Bool) : Except String String × List Effect :=
  match getUniswapAddress wp chainName, getChainConfig wp chainName with
  | .error e, _ => (.error e, [])
  | .ok _, .error e => (.error e, [])
  | .ok routerAddress, .ok cfg =>
    let txContent : EVMTransaction :=
      { toAddr := routerAddress
        data := TxData.swapExactETHForTokens amountOutMin
          [inputTokenAddress, outputTokenAddress] dest deadline
        value := amountIn
        gas := SWAP_GAS
        gasPrice := DEFAULT_GAS_PRICE
        chainId := cfg.chainId }
    let sent := sendTransaction wp env chainName txContent isBite
    (.ok sent.1, [sent.2])

/-- SwapAction.swapTokensForETH: ERC-20 input path — approval gate first,
then router call `swapExactTokensForETH`. -/
def swapTokensForETH (wp : WalletProvider) (env : Env) (amountIn amountOutMin : ℕ)
    (inputTokenAddress outputTokenAddress dest : String) (deadline : ℕ)
    (chainName : String) (isBite : Bool) : Except String String × List Effect :=
  match getUniswapAddress wp chainName with
  | .error e => (.error e, [])
  | .ok routerAddress =>
    let approved := approveToken wp env inputTokenAddress routerAddress amountIn
      (env.allowanceOf inputTokenAddress) chainName isBite
    match approved.1 with
    | .error e => (.error e, approved.2)
    | .ok _ =>
      match getChainConfig wp chainName with
      | .error e => (.error e, approved.2)
      | .ok cfg =>
        let txContent : EVMTransaction :=
          { toAddr := routerAddress
            data := TxData.swapExactTokensForETH amountIn amountOutMin
              [inputTokenAddress, outputTokenAddress] dest deadline
            value := 0
            gas := SWAP_GAS
            gasPrice := DEFAULT_GAS_PRICE
            chainId := cfg.chainId }
        let sent := sendTransaction wp env chainName txContent isBite
        (.ok sent.1, approved.2 ++ [sent.2])

/-- SwapAction.swapTokensForTokens: token-to-token path — approval gate
first, then router call `swapExactTokensForTokens`. -/
def swapTokensForTokens (wp : WalletProvider) (env : Env) (amountIn amountOutMin : ℕ)
    (inputTokenAddress outputTokenAddress dest : String) (deadline : ℕ)
    (chainName : String) (isBite : Bool) : Except String String × List Effect :=
  match getUniswapAddress wp chainName with
  | .error e => (.error e, [])
  | .ok routerAddress =>
    let approved := approveToken wp env inputTokenAddress routerAddress amountIn
      (env.allowanceOf inputTokenAddress) chainName isBite
    match approved.1 with
    | .error e => (.error e, approved.2)
    | .ok _ =>
      match getChainConfig wp chainName with
      | .error e => (.error e, approved.2)
      | .ok cfg =>
        let txContent : EVMTransaction :=
          { toAddr := routerAddress
            data := TxData.swapExactTokensForTokens amountIn amountOutMin
              [inputTokenAddress, outputTokenAddress] dest deadline
            value := 0
            gas := SWAP_GAS
            gasPrice := DEFAULT_GAS_PRICE
            chainId := cfg.chainId }
        let sent := sendTransaction wp env chainName txContent isBite
        (.ok sent.1, approved.2 ++ [sent.2])

/-- SwapAction.swap: the full pipeline — chain-support check, request
validation, token resolution, two decimals reads, amount scaling, the
deadline (`Math.floor(Date.now() / 1000) + 5 * 60`, with `nowMs` the
clock's millisecond reading), quote with the effective slippage, route
dispatch on the two isNative flags, the post-broadcast hash check, the
receipt wait, and the response.  The second component records every
network interaction in order. -/
def swap (wp : WalletProvider) (env : Env) (nowMs : ℕ) (params : SwapParams) :
    Except String SwapResponse × List Effect :=
  match isChainSupported wp params.chainName with
  | .error e => (.error e, [])
  | .ok false => (.error ("Chain '" ++ params.chainName ++ "' is not supported."), [])
  | .ok true =>
    match validateAndNormalizeParams params with
    | .error e => (.error e, [])
    | .ok _ =>
      let fromAddress := wp.address
      match resolveTokenAddress wp params.inputToken params.chainName with
      | .error e => (.error e, [])
      | .ok inputTokenInfo =>
        match resolveTokenAddress wp params.outputToken params.chainName with
        | .error e => (.error e, [])
        | .ok outputTokenInfo =>
          let fromTokenDecimals := env.decimalsOf inputTokenInfo.address
          let toTokenDecimals := env.decimalsOf outputTokenInfo.address
          let decimalsEffects :=
            [ Effect.readDecimals params.chainName inputTokenInfo.address
            , Effect.readDecimals params.chainName outputTokenInfo.address ]
          match parseUnits params.amount fromTokenDecimals with
          | none => (.error "Number is not a valid decimal number", decimalsEffects)
          | some amountIn =>
            let deadline := nowMs / 1000 + 5 * 60
            let slippage := swapEffectiveSlippage params
            match calculateAmountOut wp env amountIn inputTokenInfo.address
                outputTokenInfo.address slippage params.chainName with
            | (.error e, quoteEffects) => (.error e, decimalsEffects ++ quoteEffects)
            | (.ok (amountOut, amountOutMin), quoteEffects) =>
              let routed :=
                if inputTokenInfo.isNative && !outputTokenInfo.isNative then
                  swapETHForTokens wp env amountIn amountOutMin inputTokenInfo.address
                    outputTokenInfo.address fromAddress deadline params.chainName params.isBite
                else if !inputTokenInfo.isNative && outputTokenInfo.isNative then
                  swapTokensForETH wp env amountIn amountOutMin inputTokenInfo.address
                    outputTokenInfo.address fromAddress deadline params.chainName params.isBite
                else
                  swapTokensForTokens wp env amountIn amountOutMin inputTokenInfo.address
                    outputTokenInfo.address fromAddress deadline params.chainName params.isBite
              match routed.1 with
              | .error e => (.error e, decimalsEffects ++ quoteEffects ++ routed.2)
              | .ok txHash =>
                if txHash = "" || txHash = "0x" then
                  (.error "Swap transaction hash not received",
                    decimalsEffects ++ quoteEffects ++ routed.2)
                else
                  let response : SwapResponse :=
                    { chainName := params.chainName
                      txHash := txHash
                      inputToken := params.inputToken
                      outputToken := params.outputToken
                      amountIn := if strContainsChar params.amount '.' then params.amount
                        else params.amount ++ ".0"
                      amountOut := formatUnits amountOut toTokenDecimals
                      isBite := params.isBite }
                  (.ok response,
                    decimalsEffects ++ quoteEffects ++ routed.2
                      ++ [Effect.waitReceipt params.chainName txHash])

/-! ## TransferAction (src/actions/transfer.ts) -/

/-- TransferParams from src/types/index.ts (token, amount and data are
optional in the source; `isBite` is always supplied by the handler). -/
structure TransferParams where
  chainName : String
  token : Option String
  amount : Option String
  toAddress : String
  data : Option String
  isBite : Bool
deriving Repr, DecidableEq

/-- TransferResponse from src/types/index.ts. -/
structure TransferResponse where
  chainName : String
  txHash : String
  recipient : String
  amount : String
  token : String
  isBite : Bool
deriving Repr, DecidableEq

/-- TransferAction.TRANSFER_GAS. -/
def TRANSFER_GAS : ℕ := 1000000

/-- Runtime value of a JavaScript variable whose static type says string:
either an actual string, or the pending Promise object an `async` call
leaves behind when its result is not awaited (`resolved` records the
string the promise would resolve to; the object itself is not a string,
and string coercion yields "[object Promise]"). -/
inductive JsStringValue where
  | str (s : String)
  | promise (resolved : String)
deriving Repr, DecidableEq

/-- The transfer params object after validateAndNormalizeParams mutated
it: identical to TransferParams except that the recipient field holds the
runtime value the un-awaited formatAddress call assigned. -/
structure NormalizedTransferParams where
  chainName : String
  token : Option String
  amount : Option String
  toAddress : JsStringValue
  data : Option String
  isBite : Bool
deriving Repr, DecidableEq

/-- TransferAction.validateAndNormalizeParams: a missing/empty recipient
throws; otherwise `params.toAddress = this.walletProvider.formatAddress(params.toAddress)`
(transfer.ts:211) calls the async formatAddress (wallet.ts:146) WITHOUT
await, so the recipient field receives the pending promise — modelled as
`JsStringValue.promise` around the value the promise would resolve to —
and never the normalized string.  A given amount parsing to 0 or a
negative throws (parseFloat's NaN passes both comparisons); a data field
equal to the literal string "null" becomes "0x".  Returns the mutated
params. -/
def transferValidateAndNormalizeParams (wp : WalletProvider) (params : TransferParams) :
    Except String NormalizedTransferParams :=
  if params.toAddress = "" then .error "To address is required"
  else
    let toAddress := JsStringValue.promise (formatAddress wp (some params.toAddress))
    let amountCheck : Except String Unit :=
      match params.amount with
      | none => .ok ()
      | some a =>
        match jsParseFloat a with
        | none => .ok ()
        | some q =>
          if q = 0 then .error "Amount must be greater than 0"
          else if q < 0 then .error "Amount cannot be negative"
          else .ok ()
    match amountCheck with
    | .error e => .error e
    | .ok _ =>
      let data :=
        match params.data with
        | some "null" => some "0x"
        | d => d
      .ok { chainName := params.chainName
            token := params.token
            amount := params.amount
            toAddress := toAddress
            data := data
            isBite := params.isBite }

/-- TransferAction.transfer: chain-support check, recipient and amount
validation, token defaulting (absent/"null"/empty and case-insensitive
native matches collapse to the native symbol), then the native
value-transfer branch or the ERC-20 branch.  Because validation assigned
the recipient an un-awaited promise, both branches fail at the external
client before anything is broadcast: on the native branch the wallet
client's address assertion rejects the promise-valued `to` field inside
sendTransaction (string coercion "[object Promise]" is no address), and
on the ERC-20 branch `encodeFunctionData` (transfer.ts:180-184) rejects
the promise argument of `transfer(to, value)` right after the decimals
read.  The `JsStringValue.str` branches model the remaining source text —
the broadcast, the zero-hash check at transfer.ts:195-197 and the ERC-20
receipt wait — which is reachable only with a plain-string recipient that
validation never produces (under encryption the failure could instead
surface as the BITE middleware's wrapped error, still before any
broadcast). -/
def transfer (wp : WalletProvider) (env : Env) (params : TransferParams) :
    Except String TransferResponse × List Effect :=
  match isChainSupported wp params.chainName with
  | .error e => (.error e, [])
  | .ok false => (.error ("Chain '" ++ params.chainName ++ "' is not supported"), [])
  | .ok true =>
    match getChainNativetToken wp params.chainName with
    | .error e => (.error e, [])
    | .ok chainNativeToken =>
      match transferValidateAndNormalizeParams wp params with
      | .error e => (.error e, [])
      | .ok p =>
        match getChainConfig wp params.chainName with
        | .error e => (.error e, [])
        | .ok cfg =>
          let nativeToken := cfg.nativeToken
          let token :=
            match p.token with
            | none => nativeToken
            | some t =>
              if t = "" || t = "null" then nativeToken
              else if jsLower t = jsLower nativeToken then nativeToken
              else t
          let txData : TxData :=
            match p.data with
            | some d => TxData.raw d
            | none => TxData.empty
          if token = "null" || token = nativeToken then
            match p.amount with
            | none => (.error "Cannot convert undefined to a BigInt", [])
            | some a =>
              match parseEther a with
              | none => (.error "Number is not a valid decimal number", [])
              | some v =>
                match p.toAddress with
                | JsStringValue.promise _ =>
                  (.error "Address \"[object Promise]\" is invalid.", [])
                | JsStringValue.str dest =>
                  let tx : EVMTransaction :=
                    { toAddr := dest
                      data := txData
                      value := v
                      gas := TRANSFER_GAS
                      gasPrice := DEFAULT_GAS_PRICE
                      chainId := cfg.chainId }
                  let sent := sendTransaction wp env params.chainName tx p.isBite
                  let amountStr := if strContainsChar a '.' then a else a ++ ".0"
                  (.ok { chainName := params.chainName
                         txHash := sent.1
                         recipient := dest
                         amount := amountStr
                         token := token
                         isBite := p.isBite }, [sent.2])
          else if token = chainNativeToken then
            match p.amount with
            | none => (.error "Cannot convert undefined to a BigInt", [])
            | some a =>
              match parseEther a with
              | none => (.error "Number is not a valid decimal number", [])
              | some v =>
                match p.toAddress with
                | JsStringValue.promise _ =>
                  (.error "Address \"[object Promise]\" is invalid.", [])
                | JsStringValue.str dest =>
                  let tx : EVMTransaction :=
                    { toAddr := dest
                      data := txData
                      value := v
                      gas := TRANSFER_GAS
                      gasPrice := DEFAULT_GAS_PRICE
                      chainId := cfg.chainId }
                  let sent := sendTransaction wp env params.chainName tx p.isBite
                  let amountStr := if strContainsChar a '.' then a else a ++ ".0"
                  (.ok { chainName := params.chainName
                         txHash := sent.1
                         recipient := dest
                         amount := amountStr
                         token := nativeToken
                         isBite := p.isBite }, [sent.2])
          else
            match getChainToken wp params.chainName token with
            | .error e => (.error e, [])
            | .ok tokenAddress =>
              let decimals := env.decimalsOf tokenAddress
              let decimalsEffect := Effect.readDecimals params.chainName tokenAddress
              match p.amount with
              | none => (.error "Cannot convert undefined to a BigInt", [decimalsEffect])
              | some a =>
                match parseUnits a decimals with
                | none => (.error "Number is not a valid decimal number", [decimalsEffect])
                | some v =>
                  match p.toAddress with
                  | JsStringValue.promise _ =>
                    (.error "Address \"[object Promise]\" is invalid.", [decimalsEffect])
                  | JsStringValue.str dest =>
                    let amountStr := if strContainsChar a '.' then a else a ++ ".0"
                    let tx : EVMTransaction :=
                      { toAddr := tokenAddress
                        data := TxData.transferErc20 dest v
                        value := 0
                        gas := TRANSFER_GAS
                        gasPrice := DEFAULT_GAS_PRICE
                        chainId := cfg.chainId }
                    let sent := sendTransaction wp env params.chainName tx p.isBite
                    if sent.1 = "" || sent.1 = "0x" then
                      (.error "Get transaction hash failed", [decimalsEffect, sent.2])
                    else
                      (.ok { chainName := params.chainName
                             txHash := sent.1
                             recipient := dest
                             amount := amountStr
                             token := token
                             isBite := p.isBite },
                        [decimalsEffect, sent.2, Effect.waitReceipt params.chainName sent.1])

/-! ## GetBalanceAction (src/actions/getBalance.ts) -/

/-- GetBalanceParams from src/types/index.ts. -/
structure GetBalanceParams where
  chainName : String
  address : Option String
  token : String
deriving Repr, DecidableEq

/-- The balance half of GetBalanceResponse. -/
structure TokenBalance where
  token : String
  amount : String
deriving Repr, DecidableEq

/-- GetBalanceResponse from src/types/index.ts. -/
structure GetBalanceResponse where
  chainName : String
  address : String
  balance : Option TokenBalance
deriving Repr, DecidableEq

/-- GetBalanceAction.validateAndNormalizeParams: default the chain,
replace an absent/invalid/token-symbol address by the wallet's own
address, keep a 42-character 0x address (and, failing the symbol check,
any other 0x-prefixed string) as-is.  The token-symbol list is the chain
config's token table keys plus the native symbol; a config lookup failure
is caught and also falls back to the wallet's address. -/
def getBalanceValidateAndNormalizeParams (wp : WalletProvider) (params : GetBalanceParams) :
    GetBalanceParams :=
  let chainName := if params.chainName = "" then "fair-testnet" else params.chainName
  let address :=
    match params.address with
    | none => wp.address
    | some a =>
      if a = "" then wp.address
      else if a = "null" || a = "undefined" then wp.address
      else if strStartsWith a "0x" && a.length = 42 then a
      else
        match getChainConfig wp chainName with
        | .error _ => wp.address
        | .ok cfg =>
          let symbolList := cfg.tokens.map Prod.fst ++ [cfg.nativeToken]
          if symbolList.contains (jsUpper a) then wp.address
          else if strStartsWith a "0x" then a
          else wp.address
  { params with chainName := chainName, address := some address }

/-- GetBalanceAction.getERC20TokenBalance: `balanceOf(address)` and
`decimals()` reads, formatted with the token's own decimals. -/
def getERC20TokenBalance (env : Env) (chainName address tokenAddress : String) :
    String × List Effect :=
  (formatUnits (env.erc20BalanceOf tokenAddress address) (env.decimalsOf tokenAddress),
    [ Effect.readErc20Balance chainName tokenAddress address
    , Effect.readDecimals chainName tokenAddress ])

/-- GetBalanceAction.getBalance: normalize the params, then branch on
whether the token reference is empty or uppercases to the chain's native
symbol; the native branch calls WalletProvider.getBalance, which reads
the balance of the provider's own account address; the ERC-20 branch
reads `balanceOf` of the requested address on the referenced token. -/
def getBalance (wp : WalletProvider) (env : Env) (params : GetBalanceParams) :
    Except String GetBalanceResponse × List Effect :=
  let p := getBalanceValidateAndNormalizeParams wp params
  match p.address with
  | none => (.error "Address is required for getting balance", [])
  | some address =>
    if address = "" then (.error "Address is required for getting balance", [])
    else
      match getChainConfig wp p.chainName with
      | .error e => (.error e, [])
      | .ok cfg =>
        let nativeSymbol := cfg.nativeToken
        let queryNativeToken := p.token = "" || jsUpper p.token = cfg.nativeToken
        if !queryNativeToken then
          if strStartsWith p.token "0x" then
            let looked := getERC20TokenBalance env p.chainName address p.token
            (.ok { chainName := p.chainName
                   address := address
                   balance := some { token := p.token, amount := looked.1 } }, looked.2)
          else
            match getChainToken wp p.chainName p.token with
            | .error e => (.error e, [])
            | .ok tokenAddress =>
              let looked := getERC20TokenBalance env p.chainName address tokenAddress
              (.ok { chainName := p.chainName
                     address := address
                     balance := some { token := p.token, amount := looked.1 } }, looked.2)
        else
          let read := walletGetBalance wp env p.chainName
          (.ok { chainName := p.chainName
                 address := address
                 balance := some { token := nativeSymbol, amount := read.1 } }, [read.2])

/-! ## Concrete fixtures for witnesses and counterexamples -/

/-- A wallet provider over the default registry, in manual mode, with a
fixed account address. -/
def sampleWallet : WalletProvider :=
  { address := "0xaaaaaaaaaaaaaaaaaaaaaaaaaaaaaaaaaaaaaaaa"
    biteConfig := BiteConfig.manual
    chains := [("fair-testnet", DEFAULT_CHAIN_CONFIG)] }

/-- A benign oracle environment: 18-decimal tokens, zero allowances, a
0.5-output quote, and a successful broadcast hash. -/
def sampleEnv : Env :=
  { decimalsOf := fun _ => 18
    allowanceOf := fun _ => 0
    getAmountsOut := some 500000000000000000
    sendResult := "0x1234567890abcdef1234567890abcdef1234567890abcdef1234567890abcdef"
    nativeBalanceOf := fun _ => 0
    erc20BalanceOf := fun _ _ => 0 }

/-! ## C1 -/

/-- C1: for every output amount returned by the external quote call and
every slippage percent in [0, 50], calculateAmountOut returns amountOutMin
equal to amountOut multiplied by floor((100 - slippagePercent) * 100) and
divided by 10000 in integer arithmetic; with slippage 0 that is amountOut
itself, and with slippage 50 it is amountOut / 2 (integer division). -/
theorem calculateAmountOut_basis_points (wp : WalletProvider) (env : Env) (amountIn : ℕ)
    (a b chainName router : String) (s : ℚ) (amountOut : ℕ)
    (hrouter : getUniswapAddress wp chainName = .ok router)
    (hquote : env.getAmountsOut = some amountOut)
    (h0 : 0 ≤ s) (h50 : s ≤ 50) :
    (calculateAmountOut wp env amountIn a b s chainName).1
      = .ok (amountOut, amountOut * (⌊(100 - s) * 100⌋).toNat / 10000)
    ∧ (s = 0 → amountOut * (⌊(100 - s) * 100⌋).toNat / 10000 = amountOut)
    ∧ (s = 50 → amountOut * (⌊(100 - s) * 100⌋).toNat / 10000 = amountOut / 2) := by
  refine ⟨?_, ?_, ?_⟩
  · simp only [calculateAmountOut, hrouter, hquote]
  · intro hs
    subst hs
    have hfloor : ⌊((100 : ℚ) - 0) * 100⌋ = (10000 : ℤ) := by norm_num
    rw [hfloor]
    show amountOut * 10000 / 10000 = amountOut
    exact Nat.mul_div_cancel amountOut (by norm_num)
  · intro hs
    subst hs
    have hfloor : ⌊((100 : ℚ) - 50) * 100⌋ = (5000 : ℤ) := by norm_num
    rw [hfloor]
    show amountOut * 5000 / 10000 = amountOut / 2
    rw [(by norm_num : (10000 : ℕ) = 2 * 5000), Nat.mul_div_mul_right]
    norm_num

/-- Witness for C1 at slippage 0.5 on the default registry. -/
theorem calculateAmountOut_basis_points_witness :
    (calculateAmountOut sampleWallet sampleEnv 1000 "0xA" "0xB" (1 / 2) "fair-testnet").1
      = .ok (500000000000000000,
          500000000000000000 * (⌊(100 - (1 / 2 : ℚ)) * 100⌋).toNat / 10000)
    ∧ ((1 / 2 : ℚ) = 0 →
        500000000000000000 * (⌊(100 - (1 / 2 : ℚ)) * 100⌋).toNat / 10000 = 500000000000000000)
    ∧ ((1 / 2 : ℚ) = 50 →
        500000000000000000 * (⌊(100 - (1 / 2 : ℚ)) * 100⌋).toNat / 10000
          = 500000000000000000 / 2) :=
  calculateAmountOut_basis_points sampleWallet sampleEnv 1000 "0xA" "0xB" "fair-testnet"
    "0x05BD86b5e9A6a8E838ef50cAEB96a502271349D0" (1 / 2) 500000000000000000
    rfl rfl (by norm_num) (by norm_num)

/-! ## C2 -/

/-- C2: for a registered chain, a token reference that case-insensitively
equals the chain's native symbol (and is not itself 0x-prefixed, which
would hit the pass-through rule first) resolves to the registry's
wrapped-native entry stored under "W" + nativeSymbol, with isNative true. -/
theorem resolveTokenAddress_native_wrapped (wp : WalletProvider) (cfg : ChainConfig)
    (token chainName waddr : String)
    (hchain : wp.chains.lookup chainName = some cfg)
    (hnotHex : strStartsWith token "0x" = false)
    (hnative : jsLower token = jsLower cfg.nativeToken)
    (hwrapped : cfg.tokens.lookup ("W" ++ cfg.nativeToken) = some waddr) :
    resolveTokenAddress wp token chainName = .ok { address := waddr, isNative := true } := by
  simp only [resolveTokenAddress, hnotHex, getChainConfig, hchain, hnative,
    getChainToken, getTokenAddress, hwrapped, Bool.false_eq_true, if_false, if_true]

/-- Witness for C2: "fair" on the default registry resolves to the WFAIR
address with isNative = true. -/
theorem resolveTokenAddress_native_wrapped_witness :
    resolveTokenAddress sampleWallet "fair" "fair-testnet"
      = .ok { address := "0x4706C664ab84B7d6b9a7911cFB47b1f81335b208", isNative := true } :=
  resolveTokenAddress_native_wrapped sampleWallet DEFAULT_CHAIN_CONFIG "fair" "fair-testnet"
    "0x4706C664ab84B7d6b9a7911cFB47b1f81335b208" rfl (by decide) (by decide) (by decide)

/-! ## C5 -/

/-- Counting approvals distributes over trace concatenation. -/
theorem countApprovals_append (l₁ l₂ : List Effect) :
    countApprovals (l₁ ++ l₂) = countApprovals l₁ + countApprovals l₂ :=
  List.countP_append _ _ _

/-- The approval gate's returned allowance: the amount when it approved,
the unchanged allowance otherwise. -/
theorem approveToken_fst (wp : WalletProvider) (env : Env) (cfg : ChainConfig)
    (tokenAddress spender chainName : String) (amount allowance : ℕ) (isBite : Bool)
    (hchain : wp.chains.lookup chainName = some cfg) :
    (approveToken wp env tokenAddress spender amount allowance chainName isBite).1
      = .ok (if allowance < amount then amount else allowance) := by
  by_cases h : allowance < amount
  · simp [approveToken, h, getChainConfig, hchain]
  · simp [approveToken, h]

/-- The approval gate's trace holds one approve broadcast when the read
allowance is below the amount, none otherwise. -/
theorem approveToken_count (wp : WalletProvider) (env : Env) (cfg : ChainConfig)
    (tokenAddress spender chainName : String) (amount allowance : ℕ) (isBite : Bool)
    (hchain : wp.chains.lookup chainName = some cfg) :
    countApprovals (approveToken wp env tokenAddress spender amount allowance chainName isBite).2
      = if allowance < amount then 1 else 0 := by
  by_cases h : allowance < amount
  · simp [approveToken, h, getChainConfig, hchain, countApprovals, sendTransaction]
  · simp [approveToken, h, countApprovals]

/-- C5: the approval gate broadcasts an approve transaction exactly when
the read allowance is strictly below the amount, and running the gate
twice in a row (the second read seeing the allowance the first run left
on chain) issues at most one approval. -/
theorem approveToken_gate_iff_and_idempotent (wp : WalletProvider) (env : Env)
    (cfg : ChainConfig) (tokenAddress spender chainName : String)
    (amount allowance : ℕ) (isBite : Bool)
    (hchain : wp.chains.lookup chainName = some cfg) :
    (countApprovals
        (approveToken wp env tokenAddress spender amount allowance chainName isBite).2
      = if allowance < amount then 1 else 0)
    ∧ (∀ a1 l1,
        approveToken wp env tokenAddress spender amount allowance chainName isBite
          = (.ok a1, l1) →
        countApprovals
          (l1 ++ (approveToken wp env tokenAddress spender amount a1 chainName isBite).2)
          ≤ 1) := by
  constructor
  · exact approveToken_count wp env cfg tokenAddress spender chainName amount allowance
      isBite hchain
  · intro a1 l1 hrun
    have hl : (approveToken wp env tokenAddress spender amount allowance chainName isBite).2
        = l1 := by rw [hrun]
    have ha : (approveToken wp env tokenAddress spender amount allowance chainName isBite).1
        = .ok a1 := by rw [hrun]
    rw [approveToken_fst wp env cfg tokenAddress spender chainName amount allowance
      isBite hchain] at ha
    have ha1 : a1 = if allowance < amount then amount else allowance :=
      (Except.ok.inj ha).symm
    rw [← hl, countApprovals_append,
      approveToken_count wp env cfg tokenAddress spender chainName amount allowance
        isBite hchain,
      approveToken_count wp env cfg tokenAddress spender chainName amount a1
        isBite hchain, ha1]
    by_cases h : allowance < amount
    · simp [h]
    · simp [h]

/-- Witness for C5: allowance 0, amount 5 on the default registry. -/
theorem approveToken_gate_iff_and_idempotent_witness :
    (countApprovals
        (approveToken sampleWallet sampleEnv "0xT" "0xR" 5 0 "fair-testnet" false).2
      = if 0 < 5 then 1 else 0)
    ∧ (∀ a1 l1,
        approveToken sampleWallet sampleEnv "0xT" "0xR" 5 0 "fair-testnet" false
          = (.ok a1, l1) →
        countApprovals
          (l1 ++ (approveToken sampleWallet sampleEnv "0xT" "0xR" 5 a1 "fair-testnet" false).2)
          ≤ 1) :=
  approveToken_gate_iff_and_idempotent sampleWallet sampleEnv DEFAULT_CHAIN_CONFIG
    "0xT" "0xR" "fair-testnet" 5 0 false rfl

/-! ## C10 -/

/-- Transfer validation rewrites only the recipient and the data field; in
particular the request's encryption flag survives unchanged. -/
theorem transferValidate_preserves_isBite (wp : WalletProvider) (p : TransferParams)
    (p' : NormalizedTransferParams)
    (h : transferValidateAndNormalizeParams wp p = .ok p') : p'.isBite = p.isBite := by
  unfold transferValidateAndNormalizeParams at h
  repeat' (first
    | split at h
    | (simp only [] at h; split at h))
  all_goals try simp only [] at h
  all_goals first
    | exact Except.noConfusion h
    | (rw [← Except.ok.inj h])

/-- C10: a submitted transaction is encrypted iff the process-wide mode is
automatic or the per-request flag is set — automatic mode encrypts
regardless of the flag, manual mode encrypts exactly when the flag is set
— and both the swap and the transfer result echo the request's original
flag. -/
theorem sendTransaction_encryption_mode (wp : WalletProvider) (env : Env)
    (chainName : String) (tx : EVMTransaction) (isBite : Bool) :
    (sendTransactionEncrypts wp isBite = true
      ↔ (wp.biteConfig = BiteConfig.automatic ∨ isBite = true))
    ∧ (wp.biteConfig = BiteConfig.automatic → sendTransactionEncrypts wp isBite = true)
    ∧ (wp.biteConfig = BiteConfig.manual → sendTransactionEncrypts wp isBite = isBite)
    ∧ (sendTransaction wp env chainName tx isBite
        = (env.sendResult, Effect.sendTx chainName tx (sendTransactionEncrypts wp isBite)))
    ∧ (∀ nowMs p resp l, swap wp env nowMs p = (.ok resp, l) → resp.isBite = p.isBite)
    ∧ (∀ p resp l, transfer wp env p = (.ok resp, l) → resp.isBite = p.isBite) := by
  refine ⟨?_, ?_, ?_, rfl, ?_, ?_⟩
  · cases hcfg : wp.biteConfig <;> cases isBite <;>
      simp [sendTransactionEncrypts, hcfg]
  · intro h
    simp [sendTransactionEncrypts, h]
  · intro h
    cases isBite <;> simp [sendTransactionEncrypts, h]
  · intro nowMs p resp l h
    unfold swap at h
    repeat' (first
      | split at h
      | (simp only [] at h; split at h))
    all_goals try simp only [] at h
    all_goals injection h with h1 h2
    all_goals first
      | exact Except.noConfusion h1
      | (rw [← Except.ok.inj h1])
  · intro p resp l h
    unfold transfer at h
    repeat' (first
      | split at h
      | (simp only [] at h; split at h))
    all_goals try simp only [] at h
    all_goals injection h with h1 h2
    all_goals first
      | exact Except.noConfusion h1
      | (rw [← Except.ok.inj h1]
         exact transferValidate_preserves_isBite wp p _ (by assumption))

/-- Witness for C10 in manual mode with the flag unset. -/
theorem sendTransaction_encryption_mode_witness :
    (sendTransactionEncrypts sampleWallet false = true
      ↔ (sampleWallet.biteConfig = BiteConfig.automatic ∨ false = true))
    ∧ (sampleWallet.biteConfig = BiteConfig.automatic →
        sendTransactionEncrypts sampleWallet false = true)
    ∧ (sampleWallet.biteConfig = BiteConfig.manual →
        sendTransactionEncrypts sampleWallet false = false)
    ∧ (sendTransaction sampleWallet sampleEnv "fair-testnet"
        { toAddr := "0xT", data := TxData.empty, value := 0, gas := 0, gasPrice := 0,
          chainId := "1" } false
        = (sampleEnv.sendResult, Effect.sendTx "fair-testnet"
            { toAddr := "0xT", data := TxData.empty, value := 0, gas := 0, gasPrice := 0,
              chainId := "1" } (sendTransactionEncrypts sampleWallet false)))
    ∧ (∀ nowMs p resp l, swap sampleWallet sampleEnv nowMs p = (.ok resp, l) →
        resp.isBite = p.isBite)
    ∧ (∀ p resp l, transfer sampleWallet sampleEnv p = (.ok resp, l) →
        resp.isBite = p.isBite) :=
  sendTransaction_encryption_mode sampleWallet sampleEnv "fair-testnet"
    { toAddr := "0xT", data := TxData.empty, value := 0, gas := 0, gasPrice := 0,
      chainId := "1" } false

/-! ## C3 -/

/-- Fixture: an otherwise valid swap request that explicitly asks for
slippage 0. -/
def zeroSlippageSwap : SwapParams :=
  { chainName := "fair-testnet"
    inputToken := "FAIR"
    outputToken := "USDC"
    amount := "1.0"
    slippage := some 0
    isBite := false }

/-- C3 counterexample: a request that passes slippage 0 — a value the
validator accepts — does not reach the Quote Calculator with 0: the
JavaScript `||` at src/actions/swap.ts:114 treats 0 as falsy, so the
default 0.5 is used instead. -/
theorem swapSlippageZero_counterexample :
    zeroSlippageSwap.slippage = some 0
    ∧ swapEffectiveSlippage zeroSlippageSwap = DEFAULT_SLIPPAGE
    ∧ DEFAULT_SLIPPAGE = 1 / 2
    ∧ swapEffectiveSlippage zeroSlippageSwap ≠ 0 := by
  refine ⟨rfl, ?_, rfl, ?_⟩
  · simp [swapEffectiveSlippage, zeroSlippageSwap]
  · simp only [swapEffectiveSlippage, zeroSlippageSwap]
    norm_num [DEFAULT_SLIPPAGE]

/-- C3 amended: the slippage handed to the Quote Calculator equals the
request's slippage when one is given and nonzero; it equals the 0.5
default when the request omits slippage or gives exactly 0. -/
theorem swapEffectiveSlippage_amended (p : SwapParams) :
    (p.slippage = none → swapEffectiveSlippage p = DEFAULT_SLIPPAGE)
    ∧ (∀ s, p.slippage = some s → s ≠ 0 → swapEffectiveSlippage p = s)
    ∧ (p.slippage = some 0 → swapEffectiveSlippage p = DEFAULT_SLIPPAGE) := by
  refine ⟨?_, ?_, ?_⟩
  · intro h
    simp [swapEffectiveSlippage, h]
  · intro s h hs
    simp [swapEffectiveSlippage, h, hs]
  · intro h
    simp [swapEffectiveSlippage, h]

/-- Witness for the amended C3 at a missing, a nonzero and a zero
slippage. -/
theorem swapEffectiveSlippage_amended_witness :
    swapEffectiveSlippage { zeroSlippageSwap with slippage := none } = DEFAULT_SLIPPAGE
    ∧ swapEffectiveSlippage { zeroSlippageSwap with slippage := some 7 } = 7
    ∧ swapEffectiveSlippage zeroSlippageSwap = DEFAULT_SLIPPAGE :=
  ⟨(swapEffectiveSlippage_amended _).1 rfl,
   (swapEffectiveSlippage_amended _).2.1 7 rfl (by norm_num),
   (swapEffectiveSlippage_amended _).2.2 rfl⟩

/-! ## C4 -/

/-- Swap validation rejects case-insensitively equal token pairs with the
same-token error (both tokens being present). -/
theorem validate_same_token (p : SwapParams) (h1 : p.inputToken ≠ "")
    (h2 : p.outputToken ≠ "") (hsame : jsLower p.inputToken = jsLower p.outputToken) :
    validateAndNormalizeParams p = .error "Cannot swap the same token" := by
  unfold validateAndNormalizeParams
  rw [if_neg (by simp [h1, h2]), if_pos hsame]

/-- Swap validation rejects an out-of-range slippage with the slippage
error once the earlier checks pass. -/
theorem validate_invalid_slippage (p : SwapParams) (h1 : p.inputToken ≠ "")
    (h2 : p.outputToken ≠ "") (hdiff : jsLower p.inputToken ≠ jsLower p.outputToken)
    (h3 : p.amount ≠ "") (hamt : ∀ q, jsParseFloat p.amount = some q → ¬ q ≤ 0)
    (s : ℚ) (hs : p.slippage = some s) (hout : s < 0 ∨ 50 < s) :
    validateAndNormalizeParams p = .error "Slippage must be between 0 and 50 percent" := by
  have hcond : (match jsParseFloat p.amount with
      | some q => decide (q ≤ 0)
      | none => false) = false := by
    cases hp : jsParseFloat p.amount with
    | none => rfl
    | some q => simpa using hamt q hp
  unfold validateAndNormalizeParams
  rw [if_neg (by simp [h1, h2]), if_neg hdiff, if_neg h3]
  rw [if_neg (by simp [hcond]), hs]
  rcases hout with h | h <;> simp [h]

/-- C4: with the chain supported, a swap request whose tokens are equal
case-insensitively fails with the same-token error before any network
interaction (empty effect trace: no decimals read, no quote, no
transaction), and a swap request with distinct tokens, a non-rejected
amount and a given slippage outside [0, 50] fails with the invalid
slippage error, again with an empty effect trace. -/
theorem swap_fail_fast_validation (wp : WalletProvider) (env : Env) (nowMs : ℕ)
    (p : SwapParams) (hchain : isChainSupported wp p.chainName = .ok true) :
    (p.inputToken ≠ "" → p.outputToken ≠ "" →
      jsLower p.inputToken = jsLower p.outputToken →
      swap wp env nowMs p = (.error "Cannot swap the same token", []))
    ∧ (p.inputToken ≠ "" → p.outputToken ≠ "" →
      jsLower p.inputToken ≠ jsLower p.outputToken →
      p.amount ≠ "" → (∀ q, jsParseFloat p.amount = some q → ¬ q ≤ 0) →
      ∀ s, p.slippage = some s → s < 0 ∨ 50 < s →
      swap wp env nowMs p = (.error "Slippage must be between 0 and 50 percent", [])) := by
  constructor
  · intro h1 h2 hsame
    simp only [swap, hchain, validate_same_token p h1 h2 hsame]
  · intro h1 h2 hdiff h3 hamt s hs hout
    simp only [swap, hchain, validate_invalid_slippage p h1 h2 hdiff h3 hamt s hs hout]

/-- Fixture: a swap request naming the same token twice (different case). -/
def sameTokenSwapParams : SwapParams :=
  { chainName := "fair-testnet", inputToken := "USDC", outputToken := "usdc",
    amount := "1.0", slippage := none, isBite := false }

/-- Fixture: a swap request with slippage 60 (and an amount whose
parseFloat is NaN, which validation lets through). -/
def badSlippageSwapParams : SwapParams :=
  { chainName := "fair-testnet", inputToken := "USDC", outputToken := "SKL",
    amount := "x", slippage := some 60, isBite := false }

/-- Witness for C4: a same-token pair and a slippage of 60. -/
theorem swap_fail_fast_validation_witness :
    swap sampleWallet sampleEnv 0 sameTokenSwapParams
      = (.error "Cannot swap the same token", [])
    ∧ swap sampleWallet sampleEnv 0 badSlippageSwapParams
      = (.error "Slippage must be between 0 and 50 percent", []) :=
  ⟨(swap_fail_fast_validation sampleWallet sampleEnv 0 sameTokenSwapParams rfl).1
      (by decide) (by decide) (by decide),
   (swap_fail_fast_validation sampleWallet sampleEnv 0 badSlippageSwapParams rfl).2
      (by decide) (by decide) (by decide) (by decide)
      (fun q hq => absurd ((show jsParseFloat "x" = none from by decide) ▸ hq)
        (by simp))
      60 rfl (Or.inr (by norm_num))⟩

/-! ## C9 -/

/-- C9 counterexample: the 0x-prefixed reference "0x1234" is only 6
characters long — not the canonical 42 — is not the native symbol and is
absent from the default token table, yet the resolver returns it as-is
with isNative = false instead of applying the remaining rules (which
would fail with the unsupported-token error). -/
theorem resolveShortHex_counterexample :
    resolveTokenAddress sampleWallet "0x1234" "fair-testnet"
      = .ok { address := "0x1234", isNative := false }
    ∧ ("0x1234").length ≠ 42
    ∧ jsLower "0x1234" ≠ jsLower DEFAULT_CHAIN_CONFIG.nativeToken
    ∧ DEFAULT_CHAIN_CONFIG.tokens.lookup "0x1234" = none :=
  ⟨rfl, by decide, by decide, rfl⟩

/-- C9 amended: every 0x-prefixed token reference, of any length, is
returned as-is with isNative = false; only references without the 0x
prefix go through the native-symbol match and the token-table lookup,
which fails with the unsupported-token error when the table lacks them. -/
theorem resolveTokenAddress_hex_passthrough (wp : WalletProvider)
    (token chainName : String) :
    (strStartsWith token "0x" = true →
      resolveTokenAddress wp token chainName
        = .ok { address := token, isNative := false })
    ∧ (∀ cfg, strStartsWith token "0x" = false →
      wp.chains.lookup chainName = some cfg →
      jsLower token ≠ jsLower cfg.nativeToken →
      cfg.tokens.lookup token = none →
      resolveTokenAddress wp token chainName
        = .error "Token used not registered on the chain config") := by
  constructor
  · intro h
    simp [resolveTokenAddress, h]
  · intro cfg h hchain hnative hlookup
    simp [resolveTokenAddress, h, getChainConfig, hchain, hnative, getChainToken,
      getTokenAddress, hlookup]

/-- Witness for the amended C9: a short hex reference passes through; an
unknown symbol fails. -/
theorem resolveTokenAddress_hex_passthrough_witness :
    resolveTokenAddress sampleWallet "0xdeadbeef" "fair-testnet"
      = .ok { address := "0xdeadbeef", isNative := false }
    ∧ resolveTokenAddress sampleWallet "DOGE" "fair-testnet"
      = .error "Token used not registered on the chain config" :=
  ⟨(resolveTokenAddress_hex_passthrough sampleWallet "0xdeadbeef" "fair-testnet").1
      (by decide),
   (resolveTokenAddress_hex_passthrough sampleWallet "DOGE" "fair-testnet").2
      DEFAULT_CHAIN_CONFIG (by decide) rfl (by decide) rfl⟩

/-! ## C6 -/

/-- Count of receipt waits in an effect trace. -/
def countWaits (effects : List Effect) : ℕ :=
  effects.countP fun e =>
    match e with
    | Effect.waitReceipt _ _ => true
    | _ => false

/-- Count of transaction broadcasts in an effect trace. -/
def countBroadcasts (effects : List Effect) : ℕ :=
  effects.countP fun e =>
    match e with
    | Effect.sendTx _ _ _ => true
    | _ => false

/-- jsParseFloat evaluates "1.0" to the rational 1. -/
theorem jsParseFloat_oneDotZero : jsParseFloat "1.0" = some 1 := by
  have h : jsParseFloat "1.0"
      = some ((1 : ℚ) * ((digitsToNat ['1'] : ℚ)
          + (digitsToNat ['0'] : ℚ) / 10 ^ (['0'].length))) := rfl
  have e1 : digitsToNat ['1'] = 1 := by decide
  have e0 : digitsToNat ['0'] = 0 := by decide
  rw [h, e1, e0]
  norm_num

/-- The amount string "1.0" passes the transfer amount validation. -/
theorem oneDotZero_amount_ok : ∀ q, jsParseFloat "1.0" = some q → q ≠ 0 ∧ ¬ q < 0 := by
  intro q hq
  rw [jsParseFloat_oneDotZero] at hq
  obtain rfl : (1 : ℚ) = q := Option.some.inj hq
  exact ⟨by norm_num, by norm_num⟩

/-- jsParseFloat evaluates "100.0" to the rational 100. -/
theorem jsParseFloat_hundredDotZero : jsParseFloat "100.0" = some 100 := by
  have h : jsParseFloat "100.0"
      = some ((1 : ℚ) * ((digitsToNat ['1', '0', '0'] : ℚ)
          + (digitsToNat ['0'] : ℚ) / 10 ^ (['0'].length))) := rfl
  have e1 : digitsToNat ['1', '0', '0'] = 100 := by decide
  have e0 : digitsToNat ['0'] = 0 := by decide
  rw [h, e1, e0]
  norm_num

/-- The amount string "100.0" passes the transfer amount validation. -/
theorem hundredDotZero_amount_ok : ∀ q, jsParseFloat "100.0" = some q → q ≠ 0 ∧ ¬ q < 0 := by
  intro q hq
  rw [jsParseFloat_hundredDotZero] at hq
  obtain rfl : (100 : ℚ) = q := Option.some.inj hq
  exact ⟨by norm_num, by norm_num⟩

/-- Transfer validation succeeds (the recipient field receiving the
un-awaited promise of the formatAddress call, data kept) when the
recipient is nonempty, the amount parses to neither zero nor a negative,
and no data field is given. -/
theorem transferValidate_ok (wp : WalletProvider) (p : TransferParams) (a : String)
    (hto : p.toAddress ≠ "") (hamt : p.amount = some a)
    (hq : ∀ q, jsParseFloat a = some q → q ≠ 0 ∧ ¬ q < 0) (hdata : p.data = none) :
    transferValidateAndNormalizeParams wp p
      = .ok { chainName := p.chainName
              token := p.token
              amount := p.amount
              toAddress := JsStringValue.promise (formatAddress wp (some p.toAddress))
              data := none
              isBite := p.isBite } := by
  unfold transferValidateAndNormalizeParams
  rw [if_neg hto]
  simp only [hamt, hdata]
  cases hp : jsParseFloat a with
  | none => rfl
  | some q => simp [(hq q hp).1, (hq q hp).2]

/-- A native transfer never reaches a broadcast: the wallet client rejects
the promise-valued recipient that the un-awaited formatAddress call left
in the params, after the amount has been scaled but before anything is
sent. -/
theorem transfer_native_promise_run (wp : WalletProvider) (env : Env) (p : TransferParams)
    (cfg : ChainConfig) (a : String) (v : ℕ)
    (hchain : wp.chains.lookup p.chainName = some cfg) (hne : p.chainName ≠ "")
    (hto : p.toAddress ≠ "") (hamt : p.amount = some a)
    (hq : ∀ q, jsParseFloat a = some q → q ≠ 0 ∧ ¬ q < 0) (hdata : p.data = none)
    (htok : p.token = some cfg.nativeToken) (hv : parseEther a = some v) :
    transfer wp env p
      = (.error "Address \"[object Promise]\" is invalid.", []) := by
  have hsupp : isChainSupported wp p.chainName = .ok true := by
    simp [isChainSupported, hne, hchain]
  have hnat : getChainNativetToken wp p.chainName = .ok cfg.nativeToken := by
    simp [getChainNativetToken, getChainConfig, hchain, Except.map]
  have hval := transferValidate_ok wp p a hto hamt hq hdata
  simp only [transfer, hsupp, hnat, hval, getChainConfig, hchain, htok, hamt, hv]
  simp [ite_self]

/-- An ERC-20 transfer never reaches a broadcast either: after the
decimals read and the amount scaling, encodeFunctionData rejects the
promise-valued recipient argument of transfer(to, value). -/
theorem transfer_erc20_promise_run (wp : WalletProvider) (env : Env) (p : TransferParams)
    (cfg : ChainConfig) (t addr a : String) (v : ℕ)
    (hchain : wp.chains.lookup p.chainName = some cfg) (hne : p.chainName ≠ "")
    (hto : p.toAddress ≠ "") (hamt : p.amount = some a)
    (hq : ∀ q, jsParseFloat a = some q → q ≠ 0 ∧ ¬ q < 0) (hdata : p.data = none)
    (htok : p.token = some t) (ht1 : t ≠ "") (ht2 : t ≠ "null")
    (ht3 : jsLower t ≠ jsLower cfg.nativeToken)
    (haddr : cfg.tokens.lookup t = some addr)
    (hv : parseUnits a (env.decimalsOf addr) = some v) :
    transfer wp env p
      = (.error "Address \"[object Promise]\" is invalid.",
         [Effect.readDecimals p.chainName addr]) := by
  have ht4 : t ≠ cfg.nativeToken := fun h => ht3 (h ▸ rfl)
  have hsupp : isChainSupported wp p.chainName = .ok true := by
    simp [isChainSupported, hne, hchain]
  have hnat : getChainNativetToken wp p.chainName = .ok cfg.nativeToken := by
    simp [getChainNativetToken, getChainConfig, hchain, Except.map]
  have hval := transferValidate_ok wp p a hto hamt hq hdata
  simp only [transfer, hsupp, hnat, hval, getChainConfig, hchain, htok, hamt, hv,
    getChainToken, getTokenAddress, haddr]
  simp [ht1, ht2, ht3, ht4, haddr, hv]

/-- Fixture: an environment whose broadcast reports the zero hash "0x". -/
def zeroHashEnv : Env :=
  { decimalsOf := fun _ => 18
    allowanceOf := fun _ => 0
    getAmountsOut := some 500000000000000000
    sendResult := "0x"
    nativeBalanceOf := fun _ => 0
    erc20BalanceOf := fun _ _ => 0 }

/-- Fixture: a native FAIR transfer of 1.0 to a valid recipient. -/
def nativeTransferParams : TransferParams :=
  { chainName := "fair-testnet"
    token := some "FAIR"
    amount := some "1.0"
    toAddress := "0x2CE4EaF47CACFbC6590686f8f7521e0385822334"
    data := none
    isBite := false }

/-- Fixture: the ERC-20 transfer request of the repository's own zero-hash
test (transfer.test.ts:193-205), against the zero-hash broadcast
environment that test mocks. -/
def erc20ZeroHashTransfer : TransferParams :=
  { chainName := "fair-testnet"
    token := some "USDC"
    amount := some "100.0"
    toAddress := "0x2CE4EaF47CACFbC6590686f8f7521e0385822334"
    data := none
    isBite := false }

/-- C6 (code bug): at the repository's own zero-hash test input, the
transfer does not fail with the TransactionNotSubmitted error the claim
and the test expect — it fails with the external client's invalid-address
error, because validateAndNormalizeParams assigned the recipient the
un-awaited formatAddress promise, which encodeFunctionData rejects after
the decimals read and before any broadcast; nothing is ever broadcast or
waited for, so the zero-hash check at transfer.ts:195 is unreachable. -/
theorem transfer_zero_hash_unreachable :
    transfer sampleWallet zeroHashEnv erc20ZeroHashTransfer
      = (.error "Address \"[object Promise]\" is invalid.",
         [Effect.readDecimals "fair-testnet" "0x389E0Ec8a0226E96528761b5954830727d892117"])
    ∧ (transfer sampleWallet zeroHashEnv erc20ZeroHashTransfer).1
        ≠ .error "Get transaction hash failed"
    ∧ countBroadcasts (transfer sampleWallet zeroHashEnv erc20ZeroHashTransfer).2 = 0
    ∧ countWaits (transfer sampleWallet zeroHashEnv erc20ZeroHashTransfer).2 = 0 := by
  have h := transfer_erc20_promise_run sampleWallet zeroHashEnv erc20ZeroHashTransfer
    DEFAULT_CHAIN_CONFIG "USDC" "0x389E0Ec8a0226E96528761b5954830727d892117" "100.0"
    100000000000000000000 rfl (by decide) (by decide) rfl hundredDotZero_amount_ok rfl
    rfl (by decide) (by decide) (by decide) rfl (by decide)
  refine ⟨h, ?_, ?_, ?_⟩ <;> rw [h]
  · simp
  · rfl
  · rfl

/-! ## C7 -/

/-- A successful native-balance query reads the balance of the wallet
provider's own account address — WalletProvider.getBalance takes no
address argument — and only echoes the normalized request address in the
response. -/
theorem getBalance_native_run (wp : WalletProvider) (env : Env)
    (params : GetBalanceParams) (cfg : ChainConfig) (address : String)
    (hnorm : (getBalanceValidateAndNormalizeParams wp params).address = some address)
    (haddr : address ≠ "")
    (hchain : wp.chains.lookup
      (getBalanceValidateAndNormalizeParams wp params).chainName = some cfg)
    (htoken : params.token = "" ∨ jsUpper params.token = cfg.nativeToken) :
    getBalance wp env params
      = (.ok { chainName := (getBalanceValidateAndNormalizeParams wp params).chainName
               address := address
               balance := some { token := cfg.nativeToken
                                 amount := formatUnits (env.nativeBalanceOf wp.address) 18 } },
         [Effect.readNativeBalance
            (getBalanceValidateAndNormalizeParams wp params).chainName wp.address]) := by
  have htokp : (getBalanceValidateAndNormalizeParams wp params).token = params.token := rfl
  have hcfg : getChainConfig wp
      (getBalanceValidateAndNormalizeParams wp params).chainName = .ok cfg := by
    simp [getChainConfig, hchain]
  simp only [getBalance, hnorm, hcfg, walletGetBalance, htokp]
  rcases htoken with h | h <;> simp [haddr, h]

/-- Fixture: an environment whose only nonzero native balance sits on the
sample wallet's own address. -/
def balanceEnv : Env :=
  { decimalsOf := fun _ => 18
    allowanceOf := fun _ => 0
    getAmountsOut := some 500000000000000000
    sendResult := "0x1234567890abcdef1234567890abcdef1234567890abcdef1234567890abcdef"
    nativeBalanceOf := fun a =>
      if a = "0xaaaaaaaaaaaaaaaaaaaaaaaaaaaaaaaaaaaaaaaa" then 1000000000000000000 else 0
    erc20BalanceOf := fun _ _ => 0 }

/-- Fixture: a valid 42-character account address distinct from the sample
wallet's own. -/
def otherAccount : String := "0xbbbbbbbbbbbbbbbbbbbbbbbbbbbbbbbbbbbbbbbb"

/-- C7 counterexample: asking for the native balance of a different valid
address returns the wallet's own balance "1", not the supplied address's
balance "0": the native branch ignores the normalized address argument. -/
theorem getBalanceNativeOtherAddress_counterexample :
    getBalance sampleWallet balanceEnv
        { chainName := "fair-testnet", address := some otherAccount, token := "FAIR" }
      = (.ok { chainName := "fair-testnet"
               address := otherAccount
               balance := some { token := "FAIR", amount := "1" } },
         [Effect.readNativeBalance "fair-testnet" sampleWallet.address])
    ∧ formatUnits (balanceEnv.nativeBalanceOf otherAccount) 18 = "0"
    ∧ ("1" : String) ≠ "0" :=
  ⟨getBalance_native_run sampleWallet balanceEnv
      { chainName := "fair-testnet", address := some otherAccount, token := "FAIR" }
      DEFAULT_CHAIN_CONFIG otherAccount rfl (by decide) rfl (Or.inr rfl),
   by decide, by decide⟩

/-- C7 amended: when the token reference is empty or uppercases to the
chain's native symbol, getBalance reads the native balance of the wallet
provider's own account address — not the supplied one — formats it with
the fixed 18-decimal native precision, and echoes the normalized supplied
address in the response. -/
theorem getBalance_native_wallet_address (wp : WalletProvider) (env : Env)
    (params : GetBalanceParams) (cfg : ChainConfig) (address : String)
    (hnorm : (getBalanceValidateAndNormalizeParams wp params).address = some address)
    (haddr : address ≠ "")
    (hchain : wp.chains.lookup
      (getBalanceValidateAndNormalizeParams wp params).chainName = some cfg)
    (htoken : params.token = "" ∨ jsUpper params.token = cfg.nativeToken) :
    (getBalance wp env params).1
      = .ok { chainName := (getBalanceValidateAndNormalizeParams wp params).chainName
              address := address
              balance := some { token := cfg.nativeToken
                                amount := formatUnits (env.nativeBalanceOf wp.address) 18 } }
    ∧ (getBalance wp env params).2
      = [Effect.readNativeBalance
          (getBalanceValidateAndNormalizeParams wp params).chainName wp.address] := by
  rw [getBalance_native_run wp env params cfg address hnorm haddr hchain htoken]
  exact ⟨rfl, rfl⟩

/-- Witness for the amended C7: a FAIR balance query for a foreign address
against the fixture environment. -/
theorem getBalance_native_wallet_address_witness :
    (getBalance sampleWallet balanceEnv
        { chainName := "fair-testnet", address := some otherAccount, token := "FAIR" }).1
      = .ok { chainName := "fair-testnet"
              address := otherAccount
              balance := some { token := "FAIR"
                                amount := formatUnits
                                  (balanceEnv.nativeBalanceOf sampleWallet.address) 18 } }
    ∧ (getBalance sampleWallet balanceEnv
        { chainName := "fair-testnet", address := some otherAccount, token := "FAIR" }).2
      = [Effect.readNativeBalance "fair-testnet" sampleWallet.address] :=
  getBalance_native_wallet_address sampleWallet balanceEnv
    { chainName := "fair-testnet", address := some otherAccount, token := "FAIR" }
    DEFAULT_CHAIN_CONFIG otherAccount rfl (by decide) rfl (Or.inr rfl)

/-! ## C8 -/

/-- The hard-coded token-symbol list contains no 0x-prefixed entry, so a
0x-prefixed string never matches it, whatever its length. -/
theorem commonTokens_not_hex (s : String) (h : strStartsWith s "0x" = true) :
    commonTokens.contains (jsUpper s) = false := by
  have hpre : ['0', 'x'] <+: s.data := by
    have := List.isPrefixOf_iff_prefix.mp h
    simpa using this
  have hpre2 : ['0', 'X'] <+: (s.data.map Char.toUpper) := by
    have hm := hpre.map Char.toUpper
    simpa using hm
  rw [Bool.eq_false_iff]
  intro hc
  have hmem : jsUpper s ∈ commonTokens := by
    simpa using hc
  have hdata : (jsUpper s).data = s.data.map Char.toUpper := rfl
  simp only [commonTokens, List.mem_cons, List.not_mem_nil, or_false] at hmem
  rcases hmem with h1 | h1 | h1 | h1 | h1 <;>
    (rw [← hdata, h1] at hpre2; exact absurd hpre2 (by decide))

/-- Transfer validation, when it succeeds, leaves in the recipient field
the un-awaited promise of the formatAddress call — never a plain
string. -/
theorem transferValidate_ok_promise (wp : WalletProvider) (p : TransferParams)
    (p' : NormalizedTransferParams)
    (h : transferValidateAndNormalizeParams wp p = .ok p') :
    p'.toAddress = JsStringValue.promise (formatAddress wp (some p.toAddress)) := by
  unfold transferValidateAndNormalizeParams at h
  repeat' (first
    | split at h
    | (simp only [] at h; split at h))
  all_goals try simp only [] at h
  all_goals first
    | exact Except.noConfusion h
    | (rw [← Except.ok.inj h])

/-- No run of the transfer action broadcasts a transaction or waits for a
receipt: every path either fails validation or is stopped by the external
client rejecting the promise-valued recipient. -/
theorem transfer_never_broadcasts (wp : WalletProvider) (env : Env) (p : TransferParams) :
    countBroadcasts (transfer wp env p).2 = 0 ∧ countWaits (transfer wp env p).2 = 0 := by
  unfold transfer
  repeat' (first
    | split
    | (simp only []; split))
  all_goals try exact ⟨rfl, rfl⟩
  all_goals (exfalso
             have hp := transferValidate_ok_promise wp p _ (by assumption)
             simp_all)

/-- C8 counterexample: the recipient string "0x1234" is 0x-prefixed but
not 42 characters long and no known token symbol, so per the claim it
should be replaced by the caller's wallet address; formatAddress instead
returns it unchanged.  An empty recipient is rejected as missing rather
than replaced.  And even a valid 42-character recipient is never "used
as-is as the transaction's destination": validation assigns the
un-awaited formatAddress promise, the client rejects it, and the transfer
fails with the invalid-address error before any transaction exists. -/
theorem transferRecipient_counterexample :
    formatAddress sampleWallet (some "0x1234") = "0x1234"
    ∧ ("0x1234").length ≠ 42
    ∧ commonTokens.contains (jsUpper "0x1234") = false
    ∧ "0x1234" ≠ sampleWallet.address
    ∧ transferValidateAndNormalizeParams sampleWallet
        { nativeTransferParams with toAddress := "" }
      = .error "To address is required"
    ∧ transfer sampleWallet sampleEnv nativeTransferParams
      = (.error "Address \"[object Promise]\" is invalid.", []) := by
  refine ⟨rfl, by decide, by decide, by decide, rfl, ?_⟩
  exact transfer_native_promise_run sampleWallet sampleEnv nativeTransferParams
    DEFAULT_CHAIN_CONFIG "1.0" 1000000000000000000 rfl (by decide) (by decide) rfl
    oneDotZero_amount_ok rfl rfl (by decide)

/-- C8 amended: a missing (empty) recipient fails with the
missing-recipient error.  For a present recipient, validation calls
formatAddress — which keeps any 0x-prefixed (trimmed) string as-is,
42 characters or not, and replaces known token symbols and all other
unparseable strings by the caller's own wallet address — but assigns its
un-awaited promise to the recipient field, so the normalized string never
becomes a transaction's destination: no transfer run broadcasts a
transaction at all (the external client rejects the promise-valued
recipient first). -/
theorem transferRecipient_normalization_amended (wp : WalletProvider)
    (p : TransferParams) (a : String) :
    (p.toAddress = "" →
      transferValidateAndNormalizeParams wp p = .error "To address is required")
    ∧ (∀ p', transferValidateAndNormalizeParams wp p = .ok p' →
        p'.toAddress = JsStringValue.promise (formatAddress wp (some p.toAddress)))
    ∧ (jsTrim a ≠ "" → strStartsWith (jsTrim a) "0x" = true →
        formatAddress wp (some a) = jsTrim a)
    ∧ (jsTrim a ≠ "" → strStartsWith (jsTrim a) "0x" = false →
        commonTokens.contains (jsUpper (jsTrim a)) = true →
        formatAddress wp (some a) = wp.address)
    ∧ (jsTrim a ≠ "" → strStartsWith (jsTrim a) "0x" = false →
        commonTokens.contains (jsUpper (jsTrim a)) = false →
        formatAddress wp (some a) = wp.address)
    ∧ (∀ env, countBroadcasts (transfer wp env p).2 = 0) := by
  have hlen : ∀ s : String, s ≠ "" → ¬ s.length = 0 := by
    intro s hs h0
    apply hs
    have hdata : s.data = [] := List.length_eq_zero.mp h0
    cases s with
    | mk l =>
      cases hdata
      rfl
  refine ⟨?_, ?_, ?_, ?_, ?_, ?_⟩
  · intro h
    unfold transferValidateAndNormalizeParams
    rw [if_pos h]
  · intro p' h
    exact transferValidate_ok_promise wp p p' h
  · intro hne hsw
    simp only [formatAddress]
    rw [if_neg (hlen _ hne)]
    by_cases h42 : (jsTrim a).length = 42
    · rw [if_pos (by simp [hsw, decide_eq_true h42])]
    · rw [if_neg (by simp [hsw, decide_eq_false h42]),
        if_neg (by simpa using commonTokens_not_hex (jsTrim a) hsw), if_pos hsw]
  · intro hne hsw htok
    simp only [formatAddress]
    rw [if_neg (hlen _ hne), if_neg (by simp [hsw]), if_pos htok]
  · intro hne hsw htok
    simp only [formatAddress]
    rw [if_neg (hlen _ hne), if_neg (by simp [hsw]), if_neg (by simpa using htok),
      if_neg (by simp [hsw])]
  · intro env
    exact (transfer_never_broadcasts wp env p).1

/-- Witness for the amended C8 over concrete recipients — empty, short
hex, token symbol, unparseable — plus the promise-valued recipient and
broadcast-free run of a concrete native transfer. -/
theorem transferRecipient_normalization_amended_witness :
    transferValidateAndNormalizeParams sampleWallet
        { nativeTransferParams with toAddress := "" }
      = .error "To address is required"
    ∧ ({ chainName := "fair-testnet"
         token := some "FAIR"
         amount := some "1.0"
         toAddress := JsStringValue.promise (formatAddress sampleWallet
           (some "0x2CE4EaF47CACFbC6590686f8f7521e0385822334"))
         data := none
         isBite := false } : NormalizedTransferParams).toAddress
      = JsStringValue.promise (formatAddress sampleWallet
          (some nativeTransferParams.toAddress))
    ∧ formatAddress sampleWallet (some "0x1234") = jsTrim "0x1234"
    ∧ formatAddress sampleWallet (some "usdc") = sampleWallet.address
    ∧ formatAddress sampleWallet (some "bob") = sampleWallet.address
    ∧ countBroadcasts (transfer sampleWallet sampleEnv nativeTransferParams).2 = 0 :=
  ⟨(transferRecipient_normalization_amended sampleWallet
      { nativeTransferParams with toAddress := "" } "x").1 rfl,
   (transferRecipient_normalization_amended sampleWallet nativeTransferParams "x").2.1 _
     (transferValidate_ok sampleWallet nativeTransferParams "1.0" (by decide) rfl
       oneDotZero_amount_ok rfl),
   (transferRecipient_normalization_amended sampleWallet nativeTransferParams
      "0x1234").2.2.1 (by decide) (by decide),
   (transferRecipient_normalization_amended sampleWallet nativeTransferParams
      "usdc").2.2.2.1 (by decide) (by decide) (by decide),
   (transferRecipient_normalization_amended sampleWallet nativeTransferParams
      "bob").2.2.2.2.1 (by decide) (by decide) (by decide),
   (transferRecipient_normalization_amended sampleWallet nativeTransferParams
      "x").2.2.2.2.2 sampleEnv⟩

end PluginFair
